import Mathlib

/-!
# Verification of the cargo-alloc-profile allocation profiler

Shallow embedding of the profiler core (`src/profiler.rs`), the allocator
interception layer (`src/allocator.rs`) and the report/diff engine
(`src/reporter.rs`), with theorems checking the specification's claims
against the embedded code.

Machine integers: the Rust code stores its counters in `usize` atomics.
`current_memory` is updated with `fetch_add`/`fetch_sub`, whose wrap-around
at `2^64` is reachable (a deallocation without a matching recorded
allocation underflows), so it is modelled with explicit `% 2^64`
wrap-around.  The monotone counters (`total_allocations`,
`total_deallocations`, `total_bytes_allocated`) only ever grow by one event
at a time and cannot reach `2^64` in any physically realisable run, so they
are modelled as unbounded naturals.
-/

namespace CargoAllocProfile

/-- `usize` modulus: the Rust targets in scope are 64-bit. -/
def USIZE : Nat := 2 ^ 64

/-- Wrapping subtraction on `usize`, the semantics of `AtomicUsize::fetch_sub`
(`current_memory.fetch_sub(size, Ordering::Relaxed)` in
`record_deallocation`, src/profiler.rs:118). -/
def wrapSub (a b : Nat) : Nat :=
  (a + (USIZE - b % USIZE)) % USIZE

/-- One entry of the allocation-site table (`AllocationSite`,
src/profiler.rs:17-22). -/
structure AllocationSite where
  count : Nat
  total_bytes : Nat
  frames : List String
deriving DecidableEq, Repr

/-- The global profiler state (`ProfilerData` plus the `PROFILING_ACTIVE`
flag, src/profiler.rs:10 and 24-31).  The allocation-site `HashMap` is
modelled as an association list in first-insertion order. -/
structure ProfilerData where
  profiling_active : Bool
  total_allocations : Nat
  total_deallocations : Nat
  total_bytes_allocated : Nat
  peak_memory : Nat
  current_memory : Nat
  allocation_sites : List (String × AllocationSite)
deriving DecidableEq, Repr

/-- The initial profiler state (`PROFILER` lazy initialiser,
src/profiler.rs:33-40; profiling starts disabled, src/profiler.rs:10). -/
def initState : ProfilerData where
  profiling_active := false
  total_allocations := 0
  total_deallocations := 0
  total_bytes_allocated := 0
  peak_memory := 0
  current_memory := 0
  allocation_sites := []

/-- `sites.entry(key).and_modify(...).or_insert_with(...)`
(src/profiler.rs:94-104): bump an existing entry's count/bytes, or append a
fresh entry with count 1. -/
def insertSite (key : String) (size : Nat) (frames : List String) :
    List (String × AllocationSite) → List (String × AllocationSite)
  | [] => [(key, ⟨1, size, frames⟩)]
  | (k, site) :: rest =>
    if k = key then
      (k, { site with count := site.count + 1,
                      total_bytes := site.total_bytes + size }) :: rest
    else
      (k, site) :: insertSite key size frames rest

/-- A raw, resolved backtrace symbol: `symbol.name()` may be absent
(src/profiler.rs:174), and the `(filename, lineno)` pair is kept only when
both are present (src/profiler.rs:194). -/
structure RawSymbol where
  name : Option String
  location : Option (String × Nat)
deriving DecidableEq, Repr

/-- Does `pat` occur as a contiguous sublist starting at some position of
`cs`?  Structural worker for the substring test. -/
def containsSubAux (pat : List Char) : List Char → Bool
  | [] => pat.isEmpty
  | c :: rest => pat.isPrefixOf (c :: rest) || containsSubAux pat rest

/-- Substring test, the semantics of Rust's `str::contains` for the string
patterns used by the frame filter and the report key filter. -/
def containsSub (s pat : String) : Bool :=
  containsSubAux pat.toList s.toList

/-- Index just after the first occurrence of the separator `::`, if any:
the tail that Rust's `split("::")` continues on. -/
def afterFirstSep : List Char → Option (List Char)
  | ':' :: ':' :: rest => some rest
  | _ :: rest => afterFirstSep rest
  | [] => none

/-- The characters before the first occurrence of the separator `::`
(the whole list when no separator occurs): the first element of Rust's
`split("::")`. -/
def firstSegment : List Char → List Char
  | ':' :: ':' :: _ => []
  | c :: rest => c :: firstSegment rest
  | [] => []

/-- Index of the last element satisfying `p`, the semantics of Rust's
`str::rfind` for single-character or character-class patterns. -/
def rfindIdx (p : Char → Bool) (cs : List Char) : Option Nat :=
  match cs.reverse.findIdx? p with
  | some i => some (cs.length - 1 - i)
  | none => none

/-- Starting index of the last occurrence of `pat` as a contiguous sublist
of the list, the semantics of Rust's `str::rfind` for string patterns. -/
def lastPrefixPos (pat : List Char) : List Char → Option Nat
  | [] => if pat.isEmpty then some 0 else none
  | c :: rest =>
    match lastPrefixPos pat rest with
    | some i => some (i + 1)
    | none => if pat.isPrefixOf (c :: rest) then some 0 else none

/-- Characters with leading and trailing whitespace removed, the semantics
of Rust's `str::trim` for the ASCII frame strings in scope. -/
def trimChars (cs : List Char) : List Char :=
  ((cs.dropWhile Char.isWhitespace).reverse.dropWhile Char.isWhitespace).reverse

/-- The internal-marker test of `extract_frames` (src/profiler.rs:178-182). -/
def isInternalName (s : String) : Bool :=
  containsSub s "alloc::" || containsSub s "ProfilingAllocator" ||
  containsSub s "AllocationProfiler" || containsSub s "backtrace::"

/-- ASCII hex-digit test (`char::is_ascii_hexdigit`). -/
def isAsciiHexDigit (c : Char) : Bool :=
  c.isDigit || (decide ('a' ≤ c) && decide (c ≤ 'f')) ||
    (decide ('A' ≤ c) && decide (c ≤ 'F'))

/-- `clean_symbol_name` (src/profiler.rs:209-225): if the text after the
LAST `::h` occurrence is all ASCII hex digits, strip from that occurrence
on (a compiler-generated disambiguation suffix); then replace each angle
bracket with a visually distinct delimiter (the patterns of the two
`str::replace` calls are single characters, so they act per character). -/
def clean_symbol_name (name : String) : String :=
  let cs := name.toList
  let stripped :=
    match lastPrefixPos [':', ':', 'h'] cs with
    | some pos =>
      if (cs.drop (pos + 3)).all isAsciiHexDigit then cs.take pos else cs
    | none => cs
  String.mk (stripped.map (fun c =>
    if c = '<' then '‹' else if c = '>' then '›' else c))

/-- Rendering of a kept frame (src/profiler.rs:190-198):
`name (file:line)` when the location is known, else just the cleaned name. -/
def renderFrame (name : String) (location : Option (String × Nat)) : String :=
  let clean := clean_symbol_name name
  match location with
  | some (file, line) => clean ++ " (" ++ file ++ ":" ++ toString line ++ ")"
  | none => clean

/-- Loop body of `extract_frames` (src/profiler.rs:172-204): `skip` is the
running `skip_frames` counter, `acc` the frames collected so far.  A symbol
with no name is ignored; an internal-marker symbol increments `skip` and is
never kept (the `continue` runs wherever it occurs); a non-internal symbol
is kept only while `skip > 0` and fewer than 10 frames are kept. -/
def extractFramesGo : List RawSymbol → Nat → List String → List String
  | [], _, acc => acc
  | sym :: rest, skip, acc =>
    match sym.name with
    | none => extractFramesGo rest skip acc
    | some n =>
      if isInternalName n then
        extractFramesGo rest (skip + 1) acc
      else if skip > 0 ∧ acc.length < 10 then
        extractFramesGo rest skip (acc ++ [renderFrame n sym.location])
      else
        extractFramesGo rest skip acc

/-- `extract_frames` (src/profiler.rs:168-207) over the flattened list of
resolved symbols of the backtrace. -/
def extract_frames (syms : List RawSymbol) : List String :=
  extractFramesGo syms 0 []

/-- `AllocationProfiler::record_allocation` (src/profiler.rs:44-109), as one
sequential step: no-op when profiling is disabled; otherwise bump the
counters, add to `current_memory`, raise `peak_memory` to the new current
value when larger (the CAS retry loop computes exactly this maximum), and
record the allocation site keyed by the newline-join of the extracted
frames — but only when the extracted frame list is non-empty
(src/profiler.rs:90).  The per-thread reentrancy flag is clear at entry and
restored at exit of every non-reentrant call, so it does not appear in the
sequential state. -/
def record_allocation (size : Nat) (stack : List RawSymbol)
    (s : ProfilerData) : ProfilerData :=
  if s.profiling_active = false then s
  else
    let newCurrent := (s.current_memory + size) % USIZE
    let frames := extract_frames stack
    { s with
      total_allocations := s.total_allocations + 1
      total_bytes_allocated := s.total_bytes_allocated + size
      current_memory := newCurrent
      peak_memory := max s.peak_memory newCurrent
      allocation_sites :=
        if frames.isEmpty then s.allocation_sites
        else insertSite (String.intercalate "\n" frames) size frames
               s.allocation_sites }

/-- `AllocationProfiler::record_deallocation` (src/profiler.rs:111-119):
no-op when profiling is disabled; otherwise increment
`total_deallocations` and subtract `size` from `current_memory` with the
wrapping `fetch_sub`. -/
def record_deallocation (size : Nat) (s : ProfilerData) : ProfilerData :=
  if s.profiling_active = false then s
  else
    { s with
      total_deallocations := s.total_deallocations + 1
      current_memory := wrapSub s.current_memory size }

/-- `AllocationProfiler::enable` (src/profiler.rs:135-137). -/
def enable (s : ProfilerData) : ProfilerData :=
  { s with profiling_active := true }

/-- `AllocationProfiler::disable` (src/profiler.rs:140-142). -/
def disable (s : ProfilerData) : ProfilerData :=
  { s with profiling_active := false }

/-- `ProfilingAllocator::dealloc` (src/allocator.rs:37-45), profiling part:
the deallocation is recorded only when the calling thread's `IN_ALLOCATOR`
reentrancy flag is clear (src/allocator.rs:39). -/
def allocator_dealloc (in_allocator : Bool) (size : Nat)
    (s : ProfilerData) : ProfilerData :=
  if in_allocator then s else record_deallocation size s

/-- Operations of a sequential profiler run. -/
inductive Op where
  | alloc (size : Nat) (stack : List RawSymbol)
  | dealloc (size : Nat)
  | enable
  | disable
deriving DecidableEq, Repr

/-- One step of a run. -/
def step (s : ProfilerData) : Op → ProfilerData
  | .alloc size stack => record_allocation size stack s
  | .dealloc size => record_deallocation size s
  | .enable => enable s
  | .disable => disable s

/-- Execute a sequence of operations from a state. -/
def run (s : ProfilerData) : List Op → ProfilerData
  | [] => s
  | op :: rest => run (step s op) rest

/-- Sum of the per-site `count` fields of a site table. -/
def siteCountSum (sites : List (String × AllocationSite)) : Nat :=
  (sites.map (fun p => p.2.count)).sum

/-- A concrete enabled state with an empty gauge, for the underflow
counterexamples. -/
def enabledEmpty : ProfilerData :=
  { initState with profiling_active := true }

/-- Number of allocations recorded (i.e. counted into `total_allocations`)
by a run, tracking the enabled flag along the trace. -/
def countedAllocs : Bool → List Op → Nat
  | _, [] => 0
  | e, Op.alloc _ _ :: rest => (if e then 1 else 0) + countedAllocs e rest
  | e, Op.dealloc _ :: rest => countedAllocs e rest
  | _, Op.enable :: rest => countedAllocs true rest
  | _, Op.disable :: rest => countedAllocs false rest

/-- Number of allocations a run records into the site table: those recorded
while enabled whose extracted frame list is non-empty
(src/profiler.rs:90). -/
def countedTableAllocs : Bool → List Op → Nat
  | _, [] => 0
  | e, Op.alloc _ stack :: rest =>
    (if e ∧ (extract_frames stack).isEmpty = false then 1 else 0) +
      countedTableAllocs e rest
  | e, Op.dealloc _ :: rest => countedTableAllocs e rest
  | _, Op.enable :: rest => countedTableAllocs true rest
  | _, Op.disable :: rest => countedTableAllocs false rest

/-- Frame extraction as the C7 claim words it (spec §4.3): skip only the
LEADING run of internal-marker frames, then keep every subsequent named
frame unconditionally — internal-looking or not — up to 10 kept frames.
Written from the claim's words, to be compared with `extract_frames`. -/
def claimed_extract_frames (syms : List RawSymbol) : List String :=
  let named := syms.filterMap (fun sym =>
    sym.name.map (fun n => (n, sym.location)))
  let afterLeading := named.dropWhile (fun p => isInternalName p.1)
  (afterLeading.take 10).map (fun p => renderFrame p.1 p.2)

/-- Loop of the amended description of `extract_frames`: `seen` records
whether any internal-marker frame occurred earlier in the scan; every
internal frame is dropped wherever it occurs, and a non-internal frame is
kept only once `seen` holds, up to 10 kept frames. -/
def amendedExtractGo : List RawSymbol → Bool → List String → List String
  | [], _, acc => acc
  | sym :: rest, seen, acc =>
    match sym.name with
    | none => amendedExtractGo rest seen acc
    | some n =>
      if isInternalName n then
        amendedExtractGo rest true acc
      else if seen = true ∧ acc.length < 10 then
        amendedExtractGo rest seen (acc ++ [renderFrame n sym.location])
      else
        amendedExtractGo rest seen acc

/-- Amended frame extraction, started with no internal frame seen. -/
def amended_extract_frames (syms : List RawSymbol) : List String :=
  amendedExtractGo syms false []

/-- `ProfileSnapshot` (src/profiler.rs:158-166): an immutable value copy of
all profiler fields.  The `HashMap` is modelled as an association list in
the map's iteration order. -/
structure ProfileSnapshot where
  total_allocations : Nat
  total_deallocations : Nat
  total_bytes_allocated : Nat
  peak_memory : Nat
  current_memory : Nat
  allocation_sites : List (String × AllocationSite)
deriving DecidableEq, Repr

/-- `AllocationProfiler::get_snapshot` (src/profiler.rs:121-132). -/
def get_snapshot (s : ProfilerData) : ProfileSnapshot where
  total_allocations := s.total_allocations
  total_deallocations := s.total_deallocations
  total_bytes_allocated := s.total_bytes_allocated
  peak_memory := s.peak_memory
  current_memory := s.current_memory
  allocation_sites := s.allocation_sites

/-- `SortBy` (src/reporter.rs:12-17). -/
inductive SortBy where
  | count
  | size
  | name
deriving DecidableEq, Repr

/-- `GroupBy` (src/reporter.rs:19-24). -/
inductive GroupBy where
  | function
  | module
  | file
deriving DecidableEq, Repr

/-- `ReportOptions` (src/reporter.rs:26-37), restricted to the fields that
drive the pure report preparation and diff: `format`, `save` and `compare`
only select which I/O path runs and are omitted. -/
structure ReportOptions where
  verbosity : Nat
  filter : Option String
  min_count : Option Nat
  threshold_bytes : Option Nat
  sort_by : SortBy
  limit : Option Nat
  group_by : GroupBy
deriving DecidableEq, Repr

/-- ASCII lowercasing, the semantics of Rust's `str::to_lowercase` for the
ASCII keys and filters in scope. -/
def toLowerStr (s : String) : String :=
  String.mk (s.toList.map Char.toLower)

/-- `Reporter::extract_function_name` (src/reporter.rs:179-189): everything
before the first parenthesis, trimmed; the whole frame when there is no
parenthesis. -/
def extract_function_name (frame : String) : String :=
  let cs := frame.toList
  match cs.findIdx? (fun c => c = '(') with
  | some pos => String.mk (trimChars (cs.take pos))
  | none => frame

/-- `Reporter::extract_module_name` (src/reporter.rs:191-202): the first
two `::`-delimited segments of the function name, or the sole segment when
there is no separator (Rust's `split` never yields zero parts, so the
`"unknown"` fallback of the source is unreachable). -/
def extract_module_name (frame : String) : String :=
  let func := extract_function_name frame
  let cs := func.toList
  match afterFirstSep cs with
  | some rest =>
    String.mk (firstSegment cs) ++ "::" ++ String.mk (firstSegment rest)
  | none => func

/-- `Reporter::extract_file_name` (src/reporter.rs:204-217): the bare file
name between the first parenthesis and the last colon, with any directory
part stripped.  When the last colon precedes the parenthesis the Rust
slice expression would panic; that cannot happen for frames rendered by
`renderFrame`, and the model returns the `"unknown"` fallback there. -/
def extract_file_name (frame : String) : String :=
  let cs := frame.toList
  match cs.findIdx? (fun c => c = '('), rfindIdx (fun c => c = ':') cs with
  | some start, some stop =>
    if start + 1 ≤ stop then
      let path := (cs.drop (start + 1)).take (stop - (start + 1))
      match rfindIdx (fun c => c = '\\' || c = '/') path with
      | some sep => String.mk (path.drop (sep + 1))
      | none => String.mk path
    else "unknown"
  | _, _ => "unknown"

/-- Grouping-key selection (src/reporter.rs:231-235). -/
def groupKeyOf (gb : GroupBy) (frame : String) : String :=
  match gb with
  | .function => extract_function_name frame
  | .module => extract_module_name frame
  | .file => extract_file_name frame

/-- The three per-site filters of `prepare_sites` (src/reporter.rs:237-256):
case-insensitive substring of the key, minimum count, minimum bytes. -/
def passesFilters (o : ReportOptions) (key : String)
    (site : AllocationSite) : Bool :=
  (match o.filter with
   | some f => containsSub (toLowerStr key) (toLowerStr f)
   | none => true) &&
  (match o.min_count with
   | some m => !(site.count < m)
   | none => true) &&
  (match o.threshold_bytes with
   | some t => !(site.total_bytes < t)
   | none => true)

/-- A grouped report entry: key, summed count, summed bytes, representative
frames. -/
abbrev GroupedSite := String × Nat × Nat × List String

/-- `grouped.entry(key).and_modify(...).or_insert(...)`
(src/reporter.rs:258-264): add the site's count and bytes to an existing
key, or append a new entry keeping this first-encountered site's frames. -/
def groupInsert (key : String) (site : AllocationSite) :
    List GroupedSite → List GroupedSite
  | [] => [(key, site.count, site.total_bytes, site.frames)]
  | (k, c, b, fr) :: rest =>
    if k = key then
      (k, c + site.count, b + site.total_bytes, fr) :: rest
    else
      (k, c, b, fr) :: groupInsert key site rest

/-- Loop body of `prepare_sites` (src/reporter.rs:228-266): a site with no
frames is skipped; otherwise its grouping key is computed from the first
frame, the filters run on the individual site, and only a passing site is
merged into the grouped table. -/
def siteFoldStep (o : ReportOptions) (acc : List GroupedSite)
    (site : AllocationSite) : List GroupedSite :=
  match site.frames with
  | [] => acc
  | frame :: _ =>
    let key := groupKeyOf o.group_by frame
    if passesFilters o key site then groupInsert key site acc else acc

/-- Comparator of the configured sort (src/reporter.rs:275-279) as a
should-stay-before test: `sortLe sb a b` holds when the stable sort may
leave `a` before `b` (count and size descending, name ascending). -/
def sortLe (sb : SortBy) (a b : GroupedSite) : Bool :=
  match sb with
  | .count => decide (b.2.1 ≤ a.2.1)
  | .size => decide (b.2.2.1 ≤ a.2.2.1)
  | .name => decide (a.1 ≤ b.1)

/-- Stable sort then truncation (src/reporter.rs:268-286).  Rust's
`sort_by` is a stable sort, so its output is the unique sorted stable
permutation, here computed by ordered insertion. -/
def sortAndLimit (o : ReportOptions) (l : List GroupedSite) :
    List GroupedSite :=
  let sorted := List.insertionSort (fun a b => sortLe o.sort_by a b = true) l
  match o.limit with
  | some n => sorted.take n
  | none => sorted

/-- `Reporter::prepare_sites` (src/reporter.rs:219-287).  The iteration
order of the snapshot's site map is the association list's order, and the
grouped hash map's iteration order is modelled as first-insertion order;
in the Rust code both orders are incidental properties of the hash
tables. -/
def prepare_sites (snapshot : ProfileSnapshot) (o : ReportOptions) :
    List GroupedSite :=
  sortAndLimit o
    (snapshot.allocation_sites.foldl (fun acc p => siteFoldStep o acc p.2) [])

/-- Per-entry verbosity-0 output line of the text report
(src/reporter.rs:82-101), ANSI colour codes omitted. -/
def renderLines (sites : List GroupedSite) : List String :=
  sites.map (fun e => e.1 ++ ": " ++ toString e.2.1)

/-- Does a site pass the per-site stage of `prepare_sites`: it has a first
frame and the three filters accept it under its grouping key? -/
def sitePasses (o : ReportOptions) (site : AllocationSite) : Bool :=
  match site.frames with
  | [] => false
  | frame :: _ => passesFilters o (groupKeyOf o.group_by frame) site

/-- Grouping without any filtering: merge every site with a first frame
under its grouping key. -/
def groupAll (o : ReportOptions) (sites : List AllocationSite) :
    List GroupedSite :=
  sites.foldl (fun acc site =>
    match site.frames with
    | [] => acc
    | frame :: _ => groupInsert (groupKeyOf o.group_by frame) site acc) []

/-- `baseline_map` construction of `print_comparison_report`
(src/reporter.rs:325-341): group the baseline snapshot by the same key,
with NO filtering, keeping (count, bytes) sums. -/
def baseInsert (key : String) (site : AllocationSite) :
    List (String × Nat × Nat) → List (String × Nat × Nat)
  | [] => [(key, site.count, site.total_bytes)]
  | (k, c, b) :: rest =>
    if k = key then
      (k, c + site.count, b + site.total_bytes) :: rest
    else
      (k, c, b) :: baseInsert key site rest

/-- The baseline side of the diff (src/reporter.rs:325-341). -/
def baselineMap (base : ProfileSnapshot) (o : ReportOptions) :
    List (String × Nat × Nat) :=
  base.allocation_sites.foldl (fun acc p =>
    match p.2.frames with
    | [] => acc
    | frame :: _ => baseInsert (groupKeyOf o.group_by frame) p.2 acc) []

/-- One line of the comparison report (src/reporter.rs:345-397), as
structured content: a before/after delta, a `[NEW]` flag, or a `[REMOVED]`
flag.  The `isize` deltas are modelled as `Int`. -/
inductive DiffLine where
  | delta (name : String) (baseCount curCount : Nat) (countDiff bytesDiff : Int)
  | isNew (name : String) (count bytes : Nat)
  | removed (name : String) (count bytes : Nat)
deriving DecidableEq, Repr

/-- `Reporter::print_comparison_report` (src/reporter.rs:296-398): for each
entry of the prepared current sites, a delta line when its key is in the
baseline map, else a `[NEW]` line; then a `[REMOVED]` line for every
baseline key that no prepared current entry carries. -/
def comparisonReport (cur base : ProfileSnapshot) (o : ReportOptions) :
    List DiffLine :=
  let bmap := baselineMap base o
  let currentSites := prepare_sites cur o
  currentSites.map (fun e =>
    match List.lookup e.1 bmap with
    | some (bc, bb) =>
      DiffLine.delta e.1 bc e.2.1 ((e.2.1 : Int) - (bc : Int))
        ((e.2.2.1 : Int) - (bb : Int))
    | none => DiffLine.isNew e.1 e.2.1 e.2.2.1) ++
  (bmap.filter (fun p =>
    !(currentSites.any (fun e => e.1 == p.1)))).map (fun p =>
      DiffLine.removed p.1 p.2.1 p.2.2)

/-- JSON documents, the document level of `save_snapshot`
(src/reporter.rs:289-294, `serde_json::to_string_pretty`) and of the load
in `print_comparison_report` (src/reporter.rs:302-309,
`serde_json::from_str`).  Only the forms the snapshot format uses are
needed: non-negative numbers, strings, arrays and objects.  The rendering
of a document to text and its re-parsing are the external serde_json
crate; they are treated as exact inverses at this level. -/
inductive Json where
  | num (n : Nat)
  | str (s : String)
  | arr (items : List Json)
  | obj (fields : List (String × Json))

/-- Sequencing of fallible decoding over a list: decode every element or
fail, the Option-monad `traverse` the derived deserializer performs on
sequences and maps. -/
def mapOption (f : α → Option β) : List α → Option (List β)
  | [] => some []
  | a :: rest => do
    let b ← f a
    let bs ← mapOption f rest
    pure (b :: bs)

/-- Expect a JSON number, as serde does for a `usize` field. -/
def asNat : Json → Option Nat
  | .num n => some n
  | _ => none

/-- Expect a JSON string. -/
def asStr : Json → Option String
  | .str s => some s
  | _ => none

/-- The derived `Serialize` output for `AllocationSite`
(src/profiler.rs:17-22): an object with the declared field names in
declaration order. -/
def encodeSite (site : AllocationSite) : Json :=
  .obj [("count", .num site.count),
        ("total_bytes", .num site.total_bytes),
        ("frames", .arr (site.frames.map Json.str))]

/-- The derived `Serialize` output for `ProfileSnapshot`
(src/profiler.rs:158-166): five scalar counters plus the site map as a
nested object keyed by stack signature. -/
def encodeSnapshot (s : ProfileSnapshot) : Json :=
  .obj [("total_allocations", .num s.total_allocations),
        ("total_deallocations", .num s.total_deallocations),
        ("total_bytes_allocated", .num s.total_bytes_allocated),
        ("peak_memory", .num s.peak_memory),
        ("current_memory", .num s.current_memory),
        ("allocation_sites",
          .obj (s.allocation_sites.map (fun p => (p.1, encodeSite p.2))))]

/-- The derived `Deserialize` for `AllocationSite`: find each declared
field by name (any field order accepted), require the declared shapes. -/
def decodeSite (j : Json) : Option AllocationSite :=
  match j with
  | .obj fields => do
    let cj ← List.lookup "count" fields
    let c ← asNat cj
    let bj ← List.lookup "total_bytes" fields
    let b ← asNat bj
    let fj ← List.lookup "frames" fields
    match fj with
    | .arr items => do
      let frames ← mapOption asStr items
      pure ⟨c, b, frames⟩
    | _ => none
  | _ => none

/-- The derived `Deserialize` for `ProfileSnapshot`: the five counters by
name plus every entry of the nested site object. -/
def decodeSnapshot (j : Json) : Option ProfileSnapshot :=
  match j with
  | .obj fields => do
    let taj ← List.lookup "total_allocations" fields
    let ta ← asNat taj
    let tdj ← List.lookup "total_deallocations" fields
    let td ← asNat tdj
    let tbj ← List.lookup "total_bytes_allocated" fields
    let tb ← asNat tbj
    let pkj ← List.lookup "peak_memory" fields
    let pk ← asNat pkj
    let cmj ← List.lookup "current_memory" fields
    let cm ← asNat cmj
    let sj ← List.lookup "allocation_sites" fields
    match sj with
    | .obj sfields => do
      let sites ← mapOption
        (fun p => (decodeSite p.2).map (fun site => (p.1, site))) sfields
      pure ⟨ta, td, tb, pk, cm, sites⟩
    | _ => none
  | _ => none

/-- A resolved symbol with a name and no source location. -/
def symNamed (n : String) : RawSymbol := ⟨some n, none⟩

/-- Concrete raw stack for the C7 counterexample: a leading internal frame,
a user frame, a later internal frame, and another user frame. -/
def c7Stack : List RawSymbol :=
  [symNamed "backtrace::capture", symNamed "my_app::work",
   symNamed "alloc::raw_vec::grow", symNamed "my_app::main"]

/-- Report options with no filter, no minimum, no limit, sorted by count,
grouped by function. -/
def plainCountOpts : ReportOptions where
  verbosity := 0
  filter := none
  min_count := none
  threshold_bytes := none
  sort_by := .count
  limit := none
  group_by := .function

/-- Two allocation sites with equal counts, for the C5 tie-order
counterexample. -/
def c5SiteX : AllocationSite := ⟨2, 10, ["f_one::run (a.rs:1)"]⟩

/-- Second tied site for the C5 counterexample. -/
def c5SiteY : AllocationSite := ⟨2, 20, ["g_two::run (b.rs:2)"]⟩

/-- A snapshot whose site table iterates X before Y. -/
def c5SnapA : ProfileSnapshot := ⟨4, 0, 30, 30, 30,
  [("sigX", c5SiteX), ("sigY", c5SiteY)]⟩

/-- The structurally identical snapshot whose site table iterates Y before
X: same counters, same key-site pairs, different incidental order. -/
def c5SnapB : ProfileSnapshot := ⟨4, 0, 30, 30, 30,
  [("sigY", c5SiteY), ("sigX", c5SiteX)]⟩

/-- Report options with a minimum count of 5 and nothing else, for the C8
counterexample. -/
def c8Opts : ReportOptions where
  verbosity := 0
  filter := none
  min_count := some 5
  threshold_bytes := none
  sort_by := .count
  limit := none
  group_by := .function

/-- First of two sub-minimum sites sharing the function key `app::leaf`. -/
def c8SiteA : AllocationSite :=
  ⟨3, 100, ["app::leaf (src/app.rs:9)", "app::caller_one (src/app.rs:20)"]⟩

/-- Second sub-minimum site with the same function key. -/
def c8SiteB : AllocationSite :=
  ⟨3, 120, ["app::leaf (src/app.rs:9)", "app::caller_two (src/app.rs:30)"]⟩

/-- Snapshot with two distinct signature entries that group to one key. -/
def c8Snap : ProfileSnapshot := ⟨6, 0, 220, 220, 220,
  [("sigA", c8SiteA), ("sigB", c8SiteB)]⟩

/-- Current snapshot for the C9 witness: site X grew to count 15, site N is
new. -/
def c9Cur : ProfileSnapshot := ⟨17, 0, 3136, 3136, 3136,
  [("sx", ⟨15, 3072, ["app::x (src/x.rs:5)"]⟩),
   ("sn", ⟨2, 64, ["app::n (src/n.rs:6)"]⟩)]⟩

/-- Baseline snapshot for the C9 witness: site X at count 10, site R
present only here. -/
def c9Base : ProfileSnapshot := ⟨14, 0, 1280, 1280, 1280,
  [("sx", ⟨10, 1024, ["app::x (src/x.rs:5)"]⟩),
   ("sr", ⟨4, 256, ["app::r (src/r.rs:7)"]⟩)]⟩

end CargoAllocProfile

namespace CargoAllocProfile

/-- `record_deallocation` leaves `total_allocations` unchanged. -/
theorem record_deallocation_keeps_totalAllocations (size : Nat)
    (s : ProfilerData) :
    (record_deallocation size s).total_allocations = s.total_allocations := by
  unfold record_deallocation
  by_cases h : s.profiling_active = false <;> simp [h]

/-- `record_deallocation` leaves the site table unchanged. -/
theorem record_deallocation_keeps_sites (size : Nat) (s : ProfilerData) :
    (record_deallocation size s).allocation_sites = s.allocation_sites := by
  unfold record_deallocation
  by_cases h : s.profiling_active = false <;> simp [h]

/-- `record_deallocation` leaves the enabled flag unchanged. -/
theorem record_deallocation_keeps_active (size : Nat) (s : ProfilerData) :
    (record_deallocation size s).profiling_active = s.profiling_active := by
  unfold record_deallocation
  by_cases h : s.profiling_active = false <;> simp [h]

/-- `record_allocation` leaves the enabled flag unchanged. -/
theorem record_allocation_keeps_active (size : Nat) (stack : List RawSymbol)
    (s : ProfilerData) :
    (record_allocation size stack s).profiling_active =
      s.profiling_active := by
  unfold record_allocation
  by_cases h : s.profiling_active = false <;> simp [h]

/-- While enabled, `record_allocation` increments `total_allocations`. -/
theorem record_allocation_total_of_active (size : Nat)
    (stack : List RawSymbol) (s : ProfilerData)
    (h : s.profiling_active = true) :
    (record_allocation size stack s).total_allocations =
      s.total_allocations + 1 := by
  simp [record_allocation, h]

/-- While enabled, `record_allocation` updates the site table exactly when
the extracted frame list is non-empty. -/
theorem record_allocation_sites_of_active (size : Nat)
    (stack : List RawSymbol) (s : ProfilerData)
    (h : s.profiling_active = true) :
    (record_allocation size stack s).allocation_sites =
      if (extract_frames stack).isEmpty then s.allocation_sites
      else insertSite (String.intercalate "\n" (extract_frames stack)) size
             (extract_frames stack) s.allocation_sites := by
  simp [record_allocation, h]

/-- Inserting into the site table raises the sum of per-site counts by
exactly one, whether the key is fresh or already present. -/
theorem siteCountSum_insertSite (key : String) (size : Nat)
    (frames : List String) :
    ∀ sites, siteCountSum (insertSite key size frames sites) =
      siteCountSum sites + 1
  | [] => by simp [insertSite, siteCountSum]
  | (k, site) :: rest => by
    by_cases h : k = key
    · simp [insertSite, h, siteCountSum]
      omega
    · have ih := siteCountSum_insertSite key size frames rest
      simp [insertSite, h, siteCountSum] at ih ⊢
      omega

/-- Along every run, `total_allocations` counts the enabled-time
allocations and the sum of per-site counts counts the enabled-time
allocations whose extracted frame list is non-empty. -/
theorem runCounts : ∀ (ops : List Op) (s : ProfilerData),
    (run s ops).total_allocations =
      s.total_allocations + countedAllocs s.profiling_active ops ∧
    siteCountSum (run s ops).allocation_sites =
      siteCountSum s.allocation_sites +
        countedTableAllocs s.profiling_active ops
  | [], s => by simp [run, countedAllocs, countedTableAllocs]
  | Op.alloc size stack :: rest, s => by
    by_cases h : s.profiling_active = false
    · simpa [run, step, record_allocation, h, countedAllocs,
        countedTableAllocs] using runCounts rest s
    · simp only [Bool.not_eq_false] at h
      have ih := runCounts rest (record_allocation size stack s)
      rw [record_allocation_total_of_active size stack s h,
          record_allocation_keeps_active size stack s,
          record_allocation_sites_of_active size stack s h, h] at ih
      simp only [run, step, countedAllocs, countedTableAllocs, h] at ih ⊢
      by_cases hf : (extract_frames stack).isEmpty = true
      · simp only [hf, if_true, if_pos] at ih ⊢
        simp at ih ⊢
        omega
      · simp only [Bool.not_eq_true] at hf
        simp only [hf, if_false] at ih ⊢
        simp [siteCountSum_insertSite] at ih ⊢
        omega
  | Op.dealloc size :: rest, s => by
    have ih := runCounts rest (record_deallocation size s)
    rw [record_deallocation_keeps_totalAllocations,
        record_deallocation_keeps_sites,
        record_deallocation_keeps_active] at ih
    simpa [run, step, countedAllocs, countedTableAllocs] using ih
  | Op.enable :: rest, s => by
    have ih := runCounts rest (enable s)
    simpa [run, step, enable, countedAllocs, countedTableAllocs] using ih
  | Op.disable :: rest, s => by
    have ih := runCounts rest (disable s)
    simpa [run, step, disable, countedAllocs, countedTableAllocs] using ih

/-- C1: the claim says `record_deallocation(size)` floors `current_memory`
at zero (saturating subtraction).  The code instead uses an unguarded
wrapping `fetch_sub` (src/profiler.rs:118): starting from the enabled
initial state with `current_memory = 0`, deallocating 1 byte drives
`current_memory` to `2^64 - 1` instead of the claimed
`max (0 - 1) 0 = 0`. -/
theorem c1_dealloc_wraps_not_saturates :
    (record_deallocation 1 enabledEmpty).current_memory = 2 ^ 64 - 1 ∧
    (record_deallocation 1 enabledEmpty).current_memory ≠
      max (enabledEmpty.current_memory - 1) 0 := by
  constructor
  · rfl
  · decide

/-- C2: the claim says `peak_memory ≥ current_memory` at every observation
point.  Because `record_deallocation` wraps (the C1 defect), the run
`[enable, dealloc 1]` from the initial state leaves
`peak_memory = 0 < 2^64 - 1 = current_memory`. -/
theorem c2_peak_below_current_after_underflow :
    (run initState [Op.enable, Op.dealloc 1]).peak_memory = 0 ∧
    (run initState [Op.enable, Op.dealloc 1]).current_memory = 2 ^ 64 - 1 ∧
    (run initState [Op.enable, Op.dealloc 1]).peak_memory <
      (run initState [Op.enable, Op.dealloc 1]).current_memory := by
  refine ⟨rfl, rfl, ?_⟩
  show (0 : Nat) < (run initState [Op.enable, Op.dealloc 1]).current_memory
  decide

/-- C3 counterexample: the claim says the sum of per-site counts in a
snapshot equals `total_allocations` for every run.  An enabled-time
allocation whose backtrace yields no frames (e.g. capture failure,
src/profiler.rs:90) increments `total_allocations` but never enters the
site table: after `[enable, alloc 4 <empty stack>]` the counter is 1 while
the site-count sum is 0. -/
theorem c3_empty_frames_breaks_count_sum :
    (get_snapshot (run initState
      [Op.enable, Op.alloc 4 []])).total_allocations = 1 ∧
    siteCountSum (get_snapshot (run initState
      [Op.enable, Op.alloc 4 []])).allocation_sites = 0 := by
  constructor <;> rfl

/-- C3 amended: for every run from the initial state, `total_allocations`
equals the number of allocations recorded while enabled, and the sum of
per-site counts equals the number of those whose extracted frame list is
non-empty; the two agree exactly when every enabled-time allocation
resolves to at least one frame. -/
theorem c3_site_count_sum_amended (ops : List Op) :
    (get_snapshot (run initState ops)).total_allocations =
      countedAllocs false ops ∧
    siteCountSum (get_snapshot (run initState ops)).allocation_sites =
      countedTableAllocs false ops := by
  have h := runCounts ops initState
  simpa [initState, siteCountSum, get_snapshot] using h

/-- C4 counterexample: the claim says a deallocation made while profiling
is enabled is recorded even when the calling thread's reentrancy flag is
set.  In the code `ProfilingAllocator::dealloc` (src/allocator.rs:39-42)
skips recording whenever `IN_ALLOCATOR` is set: with the flag set,
`total_deallocations` stays 0 instead of becoming 1. -/
theorem c4_dealloc_skipped_when_reentrant :
    enabledEmpty.profiling_active = true ∧
    (allocator_dealloc true 5 enabledEmpty).total_deallocations = 0 ∧
    (allocator_dealloc true 5 enabledEmpty).total_deallocations ≠
      enabledEmpty.total_deallocations + 1 := by
  refine ⟨rfl, rfl, ?_⟩
  decide

/-- C4 amended: `ProfilingAllocator::dealloc` records a deallocation only
when the thread's `IN_ALLOCATOR` reentrancy flag is clear; when the flag is
clear and profiling is enabled, `total_deallocations` is incremented and
`size` is subtracted (wrapping) from `current_memory`, while
`record_deallocation` itself is guarded only by the enabled flag. -/
theorem c4_dealloc_guards_amended (flag : Bool) (size : Nat)
    (s : ProfilerData) :
    (flag = true → allocator_dealloc flag size s = s) ∧
    (flag = false → allocator_dealloc flag size s =
      record_deallocation size s) ∧
    (flag = false → s.profiling_active = true →
      (allocator_dealloc flag size s).total_deallocations =
          s.total_deallocations + 1 ∧
      (allocator_dealloc flag size s).current_memory =
          wrapSub s.current_memory size) := by
  refine ⟨fun h => ?_, fun h => ?_, fun h ha => ?_⟩
  · simp [allocator_dealloc, h]
  · simp [allocator_dealloc, h]
  · simp [allocator_dealloc, h, record_deallocation, ha]

/-- Witness for the C4 amended theorem at a concrete input: with the flag
clear, profiling enabled and size 5, the deallocation is recorded. -/
theorem c4_dealloc_guards_amended_witness :
    (allocator_dealloc false 5 enabledEmpty).total_deallocations =
        enabledEmpty.total_deallocations + 1 ∧
    (allocator_dealloc false 5 enabledEmpty).current_memory =
        wrapSub enabledEmpty.current_memory 5 :=
  (c4_dealloc_guards_amended false 5 enabledEmpty).2.2 rfl rfl

/-- The code's `extract_frames` loop equals the amended seen-flag loop:
the `skip_frames` counter matters only through its positivity. -/
theorem extractFramesGo_eq_amendedGo :
    ∀ (syms : List RawSymbol) (skip : Nat) (acc : List String),
      extractFramesGo syms skip acc =
        amendedExtractGo syms (decide (0 < skip)) acc
  | [], _, _ => rfl
  | ⟨nm, loc⟩ :: rest, skip, acc => by
    cases nm with
    | none => exact extractFramesGo_eq_amendedGo rest skip acc
    | some n =>
      show (if isInternalName n = true then extractFramesGo rest (skip + 1) acc
            else if skip > 0 ∧ acc.length < 10 then
              extractFramesGo rest skip (acc ++ [renderFrame n loc])
            else extractFramesGo rest skip acc) =
          (if isInternalName n = true then amendedExtractGo rest true acc
            else if decide (0 < skip) = true ∧ acc.length < 10 then
              amendedExtractGo rest (decide (0 < skip))
                (acc ++ [renderFrame n loc])
            else amendedExtractGo rest (decide (0 < skip)) acc)
      by_cases hi : isInternalName n = true
      · rw [if_pos hi, if_pos hi]
        have h := extractFramesGo_eq_amendedGo rest (skip + 1) acc
        simpa using h
      · rw [if_neg hi, if_neg hi]
        by_cases hc : skip > 0 ∧ acc.length < 10
        · rw [if_pos hc, if_pos (by simpa using hc)]
          exact extractFramesGo_eq_amendedGo rest skip
            (acc ++ [renderFrame n loc])
        · rw [if_neg hc, if_neg (by simpa using hc)]
          exact extractFramesGo_eq_amendedGo rest skip acc

/-- C7 counterexample: the claim says that once the first non-internal
frame is found, every subsequent frame is kept, internal-looking ones
included.  On a stack with a later `alloc::` frame the code drops it
(`continue` runs for every internal frame, src/profiler.rs:178-185), so
`extract_frames` disagrees with the claim's reading. -/
theorem c7_later_internal_frame_dropped :
    extract_frames c7Stack = ["my_app::work", "my_app::main"] ∧
    claimed_extract_frames c7Stack =
      ["my_app::work", "alloc::raw_vec::grow", "my_app::main"] ∧
    extract_frames c7Stack ≠ claimed_extract_frames c7Stack := by
  refine ⟨by decide, by decide, by decide⟩

/-- C7 amended: `extract_frames` drops every internal-marker frame wherever
it occurs, and keeps a named non-internal frame exactly when at least one
internal frame occurred earlier in the scan and fewer than 10 frames have
been kept. -/
theorem c7_extract_frames_amended (syms : List RawSymbol) :
    extract_frames syms = amended_extract_frames syms :=
  extractFramesGo_eq_amendedGo syms 0 []

/-- The stay-before comparator of each sort key is total. -/
theorem sortLe_total (sb : SortBy) (a b : GroupedSite) :
    sortLe sb a b = true ∨ sortLe sb b a = true := by
  cases sb with
  | count => simp [sortLe]; omega
  | size => simp [sortLe]; omega
  | name => simpa [sortLe] using le_total a.1 b.1

/-- The stay-before comparator of each sort key is transitive. -/
theorem sortLe_trans (sb : SortBy) (a b c : GroupedSite)
    (h1 : sortLe sb a b = true) (h2 : sortLe sb b c = true) :
    sortLe sb a c = true := by
  cases sb with
  | count => simp [sortLe] at h1 h2 ⊢; omega
  | size => simp [sortLe] at h1 h2 ⊢; omega
  | name => simp [sortLe] at h1 h2 ⊢; exact le_trans h1 h2

/-- C5 counterexample: the claim says the result ordering is fully
determined by the configured sort key with ties resolved by a
deterministic insertion order, never by incidental table iteration order.
Two snapshots holding the same counters and the same key-site pairs, in
different table iteration orders, render their count-tied entries in
different orders, so the output bytes differ on structurally equal
inputs. -/
theorem c5_tie_order_depends_on_table_order :
    c5SnapA.total_allocations = c5SnapB.total_allocations ∧
    c5SnapA.allocation_sites.Perm c5SnapB.allocation_sites ∧
    renderLines (prepare_sites c5SnapA plainCountOpts) ≠
      renderLines (prepare_sites c5SnapB plainCountOpts) := by
  refine ⟨rfl, ?_, by decide⟩
  show [("sigX", c5SiteX), ("sigY", c5SiteY)].Perm
    [("sigY", c5SiteY), ("sigX", c5SiteX)]
  exact List.Perm.swap _ _ _

/-- C5 amended: preparing a report is a pure function of the snapshot's
table iteration order, and its result is always sorted by the configured
key comparator; ties, however, keep the grouped table's incidental order,
so only re-rendering the SAME in-memory snapshot is guaranteed
byte-identical. -/
theorem c5_prepare_sorted_amended (s : ProfileSnapshot) (o : ReportOptions) :
    List.Sorted (fun a b => sortLe o.sort_by a b = true)
      (prepare_sites s o) := by
  haveI : IsTotal GroupedSite (fun a b => sortLe o.sort_by a b = true) :=
    ⟨fun a b => sortLe_total o.sort_by a b⟩
  haveI : IsTrans GroupedSite (fun a b => sortLe o.sort_by a b = true) :=
    ⟨fun a b c => sortLe_trans o.sort_by a b c⟩
  simp only [prepare_sites, sortAndLimit]
  cases o.limit with
  | none => exact List.sorted_insertionSort _ _
  | some n =>
    exact List.Pairwise.sublist (List.take_sublist _ _)
      (List.sorted_insertionSort _ _)

/-- C8 counterexample: the claim says the minimum-count filter applies to
the summed per-key results.  Two sites grouping to the same function key
`app::leaf`, each with count 3 and summed count 6, disappear entirely
under `min_count = 5` because the code filters each site before grouping
(src/reporter.rs:244-256). -/
theorem c8_sum_meets_minimum_but_filtered_out :
    groupKeyOf GroupBy.function "app::leaf (src/app.rs:9)" = "app::leaf" ∧
    (c8SiteA.count < 5 ∧ c8SiteB.count < 5 ∧
      5 ≤ c8SiteA.count + c8SiteB.count) ∧
    prepare_sites c8Snap c8Opts = [] := by
  refine ⟨by decide, by decide, by decide⟩

/-- The grouping loop with the in-loop filter equals grouping the
individually passing sites. -/
theorem foldFilter (o : ReportOptions) :
    ∀ (sites : List AllocationSite) (acc : List GroupedSite),
      sites.foldl (siteFoldStep o) acc =
        (sites.filter (fun site => sitePasses o site)).foldl
          (fun acc site =>
            match site.frames with
            | [] => acc
            | frame :: _ => groupInsert (groupKeyOf o.group_by frame) site acc)
          acc
  | [], _ => rfl
  | site :: rest, acc => by
    cases hf : site.frames with
    | nil =>
      have hpass : sitePasses o site = false := by simp [sitePasses, hf]
      have hstep : siteFoldStep o acc site = acc := by simp [siteFoldStep, hf]
      simp only [List.foldl_cons, List.filter_cons, hpass, hstep,
        Bool.false_eq_true, if_false]
      exact foldFilter o rest acc
    | cons frame tail =>
      by_cases hp : passesFilters o (groupKeyOf o.group_by frame) site = true
      · have hpass : sitePasses o site = true := by simp [sitePasses, hf, hp]
        have hstep : siteFoldStep o acc site =
            groupInsert (groupKeyOf o.group_by frame) site acc := by
          simp [siteFoldStep, hf, hp]
        simp only [List.foldl_cons, List.filter_cons, hpass, hstep, if_true]
        rw [foldFilter o rest]
        simp [hf]
      · have hpass : sitePasses o site = false := by
          simp [sitePasses, hf]
          simpa using hp
        have hstep : siteFoldStep o acc site = acc := by
          simp only [siteFoldStep, hf]
          simp [hp]
        simp only [List.foldl_cons, List.filter_cons, hpass, hstep,
          Bool.false_eq_true, if_false]
        exact foldFilter o rest acc

/-- C8 amended: `prepare_sites` applies the substring, minimum-count and
minimum-bytes filters to each individual site BEFORE grouping: it equals
grouping exactly the sites that individually pass, then sorting and
truncating.  A key whose every site is below the minimum contributes
nothing, even when the per-key sum meets it. -/
theorem c8_prepare_filters_per_site_amended (s : ProfileSnapshot)
    (o : ReportOptions) :
    prepare_sites s o =
      sortAndLimit o (groupAll o
        ((s.allocation_sites.map Prod.snd).filter
          (fun site => sitePasses o site))) := by
  have h1 : s.allocation_sites.foldl (fun acc p => siteFoldStep o acc p.2)
      ([] : List GroupedSite) =
      (s.allocation_sites.map Prod.snd).foldl (siteFoldStep o) [] := by
    rw [List.foldl_map]
  rw [prepare_sites, h1, foldFilter o]
  rfl

/-- A mapped string array decodes back to the original list. -/
theorem frames_roundtrip : ∀ l : List String,
    mapOption asStr (l.map Json.str) = some l
  | [] => rfl
  | s :: rest => by
    simp [mapOption, asStr, frames_roundtrip rest]

/-- Decoding an encoded allocation site returns it unchanged. -/
theorem decodeSite_encodeSite (site : AllocationSite) :
    decodeSite (encodeSite site) = some site := by
  obtain ⟨c, b, frames⟩ := site
  simp [decodeSite, encodeSite, List.lookup, asNat, frames_roundtrip]

/-- Decoding an encoded site map returns it entry by entry. -/
theorem sites_roundtrip : ∀ l : List (String × AllocationSite),
    mapOption (fun p => (decodeSite p.2).map (fun site => (p.1, site)))
      (l.map (fun p => (p.1, encodeSite p.2))) = some l
  | [] => rfl
  | (k, site) :: rest => by
    simp [mapOption, decodeSite_encodeSite, sites_roundtrip rest]

/-- C6: loading the document produced by saving a snapshot yields the
snapshot back: all five scalar counters and every site's count, bytes and
frames are reproduced (round trip at the JSON-document level; the
serde_json text rendering and parsing around it are the external crate,
taken as exact). -/
theorem c6_save_load_roundtrip (s : ProfileSnapshot) :
    decodeSnapshot (encodeSnapshot s) = some s := by
  obtain ⟨ta, td, tb, pk, cm, sites⟩ := s
  simp [decodeSnapshot, encodeSnapshot, List.lookup, asNat, sites_roundtrip]

/-- C9: for every pair of snapshots diffed under one shared options value,
the comparison report emits, for every key of the prepared current result:
a signed delta (current minus baseline, for count and bytes) when the key
is in the grouped baseline, and a `[NEW]` flag when it is not; and a
`[REMOVED]` flag for every grouped-baseline key carried by no prepared
current entry. -/
theorem c9_comparison_flags (cur base : ProfileSnapshot) (o : ReportOptions)
    (name : String) :
    (∀ c b fr, (name, c, b, fr) ∈ prepare_sites cur o →
      (∀ bc bb, List.lookup name (baselineMap base o) = some (bc, bb) →
        DiffLine.delta name bc c ((c : Int) - (bc : Int))
          ((b : Int) - (bb : Int)) ∈ comparisonReport cur base o) ∧
      (List.lookup name (baselineMap base o) = none →
        DiffLine.isNew name c b ∈ comparisonReport cur base o)) ∧
    (∀ bc bb, (name, bc, bb) ∈ baselineMap base o →
      (∀ e ∈ prepare_sites cur o, e.1 ≠ name) →
      DiffLine.removed name bc bb ∈ comparisonReport cur base o) := by
  constructor
  · intro c b fr hmem
    constructor
    · intro bc bb hlook
      simp only [comparisonReport]
      refine List.mem_append_left _ ?_
      refine List.mem_map.mpr ⟨(name, c, b, fr), hmem, ?_⟩
      simp [hlook]
    · intro hlook
      simp only [comparisonReport]
      refine List.mem_append_left _ ?_
      refine List.mem_map.mpr ⟨(name, c, b, fr), hmem, ?_⟩
      simp [hlook]
  · intro bc bb hmem hnc
    simp only [comparisonReport]
    refine List.mem_append_right _ ?_
    refine List.mem_map.mpr ⟨(name, bc, bb), ?_, rfl⟩
    refine List.mem_filter.mpr ⟨hmem, ?_⟩
    simp only [Bool.not_eq_true', List.any_eq_false]
    intro e he
    simpa using hnc e he

/-- Witness for C9 at the spec's own scenario: baseline X at count 10
versus current X at count 15 yields delta +5 (and +2048 bytes), the
current-only site is flagged new, the baseline-only site removed. -/
theorem c9_comparison_flags_witness :
    DiffLine.delta "app::x" 10 15 5 2048 ∈
      comparisonReport c9Cur c9Base plainCountOpts ∧
    DiffLine.isNew "app::n" 2 64 ∈
      comparisonReport c9Cur c9Base plainCountOpts ∧
    DiffLine.removed "app::r" 4 256 ∈
      comparisonReport c9Cur c9Base plainCountOpts := by
  refine ⟨?_, ?_, ?_⟩
  · exact ((c9_comparison_flags c9Cur c9Base plainCountOpts "app::x").1 15 3072
      ["app::x (src/x.rs:5)"] (by decide)).1 10 1024 (by decide)
  · exact ((c9_comparison_flags c9Cur c9Base plainCountOpts "app::n").1 2 64
      ["app::n (src/n.rs:6)"] (by decide)).2 (by decide)
  · exact (c9_comparison_flags c9Cur c9Base plainCountOpts "app::r").2 4 256
      (by decide) (by decide)

/-- C10: `record_deallocation` modifies only `total_deallocations` and
`current_memory`: `total_allocations`, `total_bytes_allocated`,
`peak_memory` and the allocation-site table are unchanged by every call,
whether profiling is enabled or disabled. -/
theorem c10_record_deallocation_frame (size : Nat) (s : ProfilerData) :
    (record_deallocation size s).total_allocations = s.total_allocations ∧
    (record_deallocation size s).total_bytes_allocated =
      s.total_bytes_allocated ∧
    (record_deallocation size s).peak_memory = s.peak_memory ∧
    (record_deallocation size s).allocation_sites = s.allocation_sites := by
  unfold record_deallocation
  by_cases h : s.profiling_active = false <;> simp [h]

end CargoAllocProfile
